import Mathlib

/-!
Shallow embedding of the Kontiki/TASER gyroscope measurement module
(`GyroscopeMeasurement` in `taser::measurements`) together with the
collaborator interfaces it drives (the ceres-style dynamic cost function,
the estimation Problem, and the entity registration callbacks).

The `GyroscopeMeasurement` header is translated directly from the source.
The trajectory, sensor, estimator and ceres machinery is not part of the
source tree; where a definition models such a collaborator its doc comment
starts with `Modelled from the spec:` and names what is missing.

Scalars are embedded as rationals (`ℚ`); the generic numeric parameter `T`
of the C++ templates is kept as a Lean type parameter so that the same
residual code path serves plain and dual-number evaluation.
-/

namespace Taser

/-- A fixed 3-vector over an arbitrary scalar type, embedding
`Eigen::Matrix<T, 3, 1>`. The fixed dimension 3 is part of the type. -/
structure Vec3 (T : Type) where
  x : T
  y : T
  z : T
deriving DecidableEq, Repr

/-- Componentwise subtraction of 3-vectors. -/
def Vec3.sub {T : Type} [Sub T] (a b : Vec3 T) : Vec3 T :=
  ⟨a.x - b.x, a.y - b.y, a.z - b.z⟩

/-- Componentwise addition of 3-vectors. -/
def Vec3.add {T : Type} [Add T] (a b : Vec3 T) : Vec3 T :=
  ⟨a.x + b.x, a.y + b.y, a.z + b.z⟩

/-- Componentwise cast, embedding `w.cast<T>()`. -/
def Vec3.map {S T : Type} (f : S → T) (v : Vec3 S) : Vec3 T :=
  ⟨f v.x, f v.y, f v.z⟩

/-- The components of a 3-vector as a list; its length is the vector's
dimension. -/
def Vec3.toList {T : Type} (v : Vec3 T) : List T :=
  [v.x, v.y, v.z]

/-- Modelled from the spec: the per-entity Parameter Descriptor (`Meta`,
`taser/trajectories/trajectory.h` and `taser/sensors/imu.h` are not in the
source tree). It records the ordered list of parameter-block sizes the
entity needs over the queried time span. -/
structure Meta where
  blocks : List Nat
deriving DecidableEq, Repr

/-- Modelled from the spec: `Meta::NumParameters()`, the number of
parameter blocks recorded, i.e. how many entries of the flat pointer
array the entity's view consumes. -/
def Meta.NumParameters (m : Meta) : Nat :=
  m.blocks.length

/-- Modelled from the spec: `entity::ParameterInfo<double>` — the
descriptor of one registered parameter block: its underlying storage
location (modelled as an identifier) and its size. -/
structure ParameterInfo where
  data : Nat
  size : Nat
deriving DecidableEq, Repr

/-- Modelled from the spec:
`entity::ParameterInfo<double>::ToParameterBlocks` — the ordered list of
underlying storage locations of the given descriptors. -/
def ParameterInfo.ToParameterBlocks (pis : List ParameterInfo) : List Nat :=
  pis.map (fun pi => pi.data)

/-- Modelled from the spec: `ceres::DynamicAutoDiffCostFunction` as seen by
this module — a cost function whose parameter-block sizes are declared
dynamically and whose output dimension is set once. -/
structure DynamicCostFunction where
  parameter_block_sizes : List Nat
  num_residuals : Nat
deriving DecidableEq, Repr

/-- Modelled from the spec: `AddParameterBlock(size)` appends one declared
parameter block of the given size. -/
def DynamicCostFunction.AddParameterBlock (cf : DynamicCostFunction) (s : Nat) :
    DynamicCostFunction :=
  { cf with parameter_block_sizes := cf.parameter_block_sizes ++ [s] }

/-- Modelled from the spec: `SetNumResiduals(n)` fixes the output
dimension. -/
def DynamicCostFunction.SetNumResiduals (cf : DynamicCostFunction) (n : Nat) :
    DynamicCostFunction :=
  { cf with num_residuals := n }

/-- Modelled from the spec: one residual block recorded by the Problem —
the submitted cost function, the optional loss function (`none` embeds
`nullptr`), and the ordered list of parameter-block storage locations. -/
structure ResidualBlock where
  cost : DynamicCostFunction
  loss : Option Unit
  parameter_blocks : List Nat
deriving DecidableEq, Repr

/-- Modelled from the spec: the external Problem collaborator — the
parameter blocks registered so far (storage location and size) and the
residual blocks submitted so far. -/
structure ProblemState where
  parameter_blocks : List (Nat × Nat)
  residual_blocks : List ResidualBlock
deriving DecidableEq, Repr

/-- Modelled from the spec: `Problem::AddResidualBlock` appends one
residual block. -/
def ProblemState.AddResidualBlock (p : ProblemState) (cf : DynamicCostFunction)
    (loss : Option Unit) (blocks : List Nat) : ProblemState :=
  { p with residual_blocks := p.residual_blocks ++ [⟨cf, loss, blocks⟩] }

/-- Modelled from the spec: the error raised when a queried time lies
outside an entity's representable parameter span. -/
inductive EstimatorError where
  | OutOfSupportError
deriving DecidableEq, Repr

/-- The gyroscope measurement: a timestamp, an observed angular-velocity
vector, a scalar weight, and a shared reference to the IMU sensor model
(the reference is embedded as a value of an abstract type `ImuPtr`).
Translated from `GyroscopeMeasurement`'s data members. -/
structure GyroscopeMeasurement (ImuPtr : Type) where
  imu_ : ImuPtr
  t : ℚ
  w : Vec3 ℚ
  weight : ℚ
deriving DecidableEq, Repr

/-- The delegating three-argument constructor
`GyroscopeMeasurement(imu, t, w)`, which fixes the weight at `1.0`. -/
def GyroscopeMeasurement.mkDefault {ImuPtr : Type} (imu : ImuPtr) (t : ℚ)
    (w : Vec3 ℚ) : GyroscopeMeasurement ImuPtr :=
  GyroscopeMeasurement.mk imu t w 1

/-- The typed IMU view handed to `Measure`/`Error`
(`type::Imu<ImuModel, T>`): all that the measurement uses of it is its
`Gyroscope` evaluation, which may consult the trajectory view. -/
structure ImuView (Traj T : Type) where
  Gyroscope : Traj → T → Vec3 T

/-- `GyroscopeMeasurement::Measure`: the predicted angular-velocity
reading, `imu.Gyroscope(trajectory, T(t))`. `castQ` embeds the `T(t)`
conversion of the plain timestamp into the generic scalar type. -/
def GyroscopeMeasurement.Measure {ImuPtr Traj T : Type}
    (m : GyroscopeMeasurement ImuPtr) (imu : ImuView Traj T) (trajectory : Traj)
    (castQ : ℚ → T) : Vec3 T :=
  imu.Gyroscope trajectory (castQ m.t)

/-- `GyroscopeMeasurement::Error`: observed minus predicted,
`w.cast<T>() - Measure(imu, trajectory)`. -/
def GyroscopeMeasurement.Error {ImuPtr Traj T : Type} [Sub T]
    (m : GyroscopeMeasurement ImuPtr) (imu : ImuView Traj T) (trajectory : Traj)
    (castQ : ℚ → T) : Vec3 T :=
  Vec3.sub (Vec3.map castQ m.w) (m.Measure imu trajectory castQ)

/-- Modelled from the spec: `entity::Map<Model, T>(&params[offset], meta)`
reconstructs a typed entity view from `meta.NumParameters()` consecutive
parameter-block pointers starting at `offset` in the flat array. The raw
view is the extracted slice of parameter blocks. -/
def entityMap {T : Type} (params : List (List T)) (offset : Nat) (meta : Meta) :
    List (List T) :=
  (params.drop offset).take meta.NumParameters

/-- `GyroscopeMeasurement::Residual`: holds a reference to its measurement
and the two Meta instances filled in during registration. -/
structure Residual (ImuPtr : Type) where
  measurement : GyroscopeMeasurement ImuPtr
  imu_meta : Meta
  trajectory_meta : Meta
deriving DecidableEq, Repr

/-- The trajectory view the residual functor reconstructs: the slice of
the flat parameter array starting at offset `0` of length
`trajectory_meta.NumParameters()`. -/
def Residual.trajectoryView {ImuPtr T : Type} (r : Residual ImuPtr)
    (params : List (List T)) : List (List T) :=
  entityMap params 0 r.trajectory_meta

/-- The IMU view slice the residual functor reconstructs: the slice of the
flat parameter array starting right after the trajectory's blocks, of
length `imu_meta.NumParameters()`. -/
def Residual.imuView {ImuPtr T : Type} (r : Residual ImuPtr)
    (params : List (List T)) : List (List T) :=
  entityMap params (0 + r.trajectory_meta.NumParameters) r.imu_meta

/-- `GyroscopeMeasurement::Residual::operator()`: reconstructs the
trajectory view at offset 0, advances the offset by
`trajectory_meta.NumParameters()`, reconstructs the IMU view there,
writes `measurement.Error(imu, trajectory)` into the fixed 3-vector
output, and returns `true`. The semantics of the IMU's `Gyroscope`
evaluation over its own and the trajectory's parameter blocks is supplied
as `gyro` (it lives in the sensor model, outside this module). -/
def Residual.eval {ImuPtr T : Type} [Sub T]
    (gyro : List (List T) → List (List T) → T → Vec3 T)
    (r : Residual ImuPtr) (castQ : ℚ → T) (params : List (List T)) :
    Bool × Vec3 T :=
  let trajectory := r.trajectoryView params
  let imuSlice := r.imuView params
  let imu : ImuView (List (List T)) T := ⟨fun tr time => gyro imuSlice tr time⟩
  let out := r.measurement.Error imu trajectory castQ
  (true, out)

/-- The type of the registration callbacks the measurement drives:
given the time spans of interest and the current Problem, an entity either
registers its blocks — returning the updated Problem, its filled Meta and
the descriptors it appended to `parameter_info` — or fails. The Problem
state is returned in both cases, embedding in-place mutation. -/
def EntityAdd : Type :=
  List (ℚ × ℚ) → ProblemState →
    ProblemState × Except EstimatorError (Meta × List ParameterInfo)

/-- `GyroscopeMeasurement::AddToEstimator`: first asks the trajectory
(`estimator.AddTrajectoryForTimes({{t,t}}, trajectory_meta,
parameter_info)`), then the stored sensor
(`imu_->AddToProblem(problem, {{t,t}}, imu_meta, parameter_info)`) to
register parameters, accumulating the combined ordered `parameter_info`
list; then declares one parameter block per entry with that entry's size,
sets the residual dimension to 3, and submits the cost function with the
storage locations in `parameter_info` order and no loss function.
`trajAdd` embeds `TrajectoryEstimator::AddTrajectoryForTimes` and
`imuAdd` the IMU model's `AddToProblem`, neither of which is in the
source tree. Returns the Problem together with the constructed residual,
or the propagated registration error. -/
def GyroscopeMeasurement.AddToEstimator {ImuPtr : Type}
    (trajAdd : EntityAdd) (imuAdd : ImuPtr → EntityAdd)
    (m : GyroscopeMeasurement ImuPtr) (est : ProblemState) :
    ProblemState × Except EstimatorError (Residual ImuPtr) :=
  match trajAdd [(m.t, m.t)] est with
  | (p1, Except.error e) => (p1, Except.error e)
  | (p1, Except.ok (tmeta, tinfo)) =>
    match imuAdd m.imu_ [(m.t, m.t)] p1 with
    | (p2, Except.error e) => (p2, Except.error e)
    | (p2, Except.ok (imeta, iinfo)) =>
      let parameter_info := tinfo ++ iinfo
      let cost_function : DynamicCostFunction := ⟨[], 0⟩
      let cost_function := parameter_info.foldl
        (fun cf pi => cf.AddParameterBlock pi.size) cost_function
      let cost_function := cost_function.SetNumResiduals 3
      let p3 := p2.AddResidualBlock cost_function none
        (ParameterInfo.ToParameterBlocks parameter_info)
      (p3, Except.ok ⟨m, imeta, tmeta⟩)

/-- Scalar multiplication of a rational 3-vector, used to state difference
quotients. -/
def Vec3.smul (q : ℚ) (v : Vec3 ℚ) : Vec3 ℚ :=
  ⟨q * v.x, q * v.y, q * v.z⟩

/-- A parameter block (a list of scalars) read as a 3-vector; missing
entries read as zero. -/
def vec3OfBlock {T : Type} [Zero T] (l : List T) : Vec3 T :=
  ⟨l.getD 0 0, l.getD 1 0, l.getD 2 0⟩

/-- Modelled from the spec: the gyroscope prediction of a linear test
trajectory (one size-3 parameter block holding its constant angular
velocity) observed through an IMU with one additive size-3 gyroscope-bias
block — prediction = trajectory constant + bias. The concrete trajectory
and sensor models are not in the source tree; this is the simplest
instance of the entity capability contract, written once, generically
over the scalar type `T`, so the same code path serves plain and
dual-number evaluation. -/
def gyroLinear {T : Type} [Add T] [Zero T]
    (imuBlocks trajBlocks : List (List T)) (_time : T) : Vec3 T :=
  Vec3.add (vec3OfBlock (trajBlocks.getD 0 [])) (vec3OfBlock (imuBlocks.getD 0 []))

/-- Forward-mode dual numbers over ℚ: a value together with one derivative
component, embedding the jet type the autodiff evaluation substitutes for
`T`. -/
structure Dual where
  val : ℚ
  eps : ℚ
deriving DecidableEq, Repr

instance : Add Dual := ⟨fun a b => ⟨a.val + b.val, a.eps + b.eps⟩⟩

instance : Sub Dual := ⟨fun a b => ⟨a.val - b.val, a.eps - b.eps⟩⟩

instance : Mul Dual := ⟨fun a b => ⟨a.val * b.val, a.val * b.eps + a.eps * b.val⟩⟩

instance : Zero Dual := ⟨⟨0, 0⟩⟩

/-- Casting a plain scalar into a dual number (zero derivative part),
embedding `T(t)` for jet types. -/
def Dual.const (q : ℚ) : Dual :=
  ⟨q, 0⟩

/-- Lift one parameter block to dual numbers, seeding the derivative of
the entry at index `j` (if present) with 1. -/
def seedBlock : List ℚ → Nat → List Dual
  | [], _ => []
  | x :: xs, 0 => ⟨x, 1⟩ :: xs.map Dual.const
  | x :: xs, Nat.succ j => Dual.const x :: seedBlock xs j

/-- Lift a flat parameter array to dual numbers, seeding the derivative of
the scalar at block `i`, component `j`. -/
def dualSeed : List (List ℚ) → Nat → Nat → List (List Dual)
  | [], _, _ => []
  | blk :: rest, 0, j => seedBlock blk j :: rest.map (fun l => l.map Dual.const)
  | blk :: rest, Nat.succ i, j => blk.map Dual.const :: dualSeed rest i j

/-- Add `h` to the entry at index `j` of one parameter block (if present). -/
def perturbBlock : List ℚ → Nat → ℚ → List ℚ
  | [], _, _ => []
  | x :: xs, 0, h => (x + h) :: xs
  | x :: xs, Nat.succ j, h => x :: perturbBlock xs j h

/-- Add `h` to the scalar at block `i`, component `j` of a flat parameter
array. -/
def perturb : List (List ℚ) → Nat → Nat → ℚ → List (List ℚ)
  | [], _, _, _ => []
  | blk :: rest, 0, j, h => perturbBlock blk j h :: rest
  | blk :: rest, Nat.succ i, j, h => blk :: perturb rest i j h

/-- A concrete trajectory registration callback used to instantiate the
theorems: it registers two size-4 parameter blocks (storages 10 and 11)
and always succeeds. -/
def trajAddDemo : EntityAdd := fun _ p =>
  ({ p with parameter_blocks := p.parameter_blocks ++ [(10, 4), (11, 4)] },
   Except.ok (⟨[4, 4]⟩, [⟨10, 4⟩, ⟨11, 4⟩]))

/-- A concrete IMU registration callback used to instantiate the theorems:
it registers one size-3 parameter block (storage 20) and always
succeeds. -/
def imuAddDemo : Unit → EntityAdd := fun _ _ p =>
  ({ p with parameter_blocks := p.parameter_blocks ++ [(20, 3)] },
   Except.ok (⟨[3]⟩, [⟨20, 3⟩]))

/-- A trajectory registration callback whose query time is outside its
support: it fails with `OutOfSupportError` and leaves the Problem
untouched. -/
def trajAddFail : EntityAdd := fun _ p =>
  (p, Except.error EstimatorError.OutOfSupportError)

/-- Declaring parameter blocks by folding over the descriptor list appends
exactly one size per descriptor, in order, and leaves the output dimension
alone. -/
theorem foldl_addParameterBlock (pis : List ParameterInfo) (cf : DynamicCostFunction) :
    pis.foldl (fun cf pi => cf.AddParameterBlock pi.size) cf =
      ⟨cf.parameter_block_sizes ++ pis.map (fun pi => pi.size), cf.num_residuals⟩ := by
  induction pis generalizing cf with
  | nil => simp
  | cons p ps ih =>
    rw [List.foldl_cons, ih]
    simp [DynamicCostFunction.AddParameterBlock]

/-- The normal-path behaviour of `AddToEstimator`, as one equation: when
both registrations succeed, the result is the sensor-updated Problem
extended with the one submitted residual block, and the constructed
residual. -/
theorem addToEstimator_spec {ImuPtr : Type}
    (trajAdd : EntityAdd) (imuAdd : ImuPtr → EntityAdd)
    (m : GyroscopeMeasurement ImuPtr) (est p1 p2 : ProblemState)
    (tmeta imeta : Meta) (tinfo iinfo : List ParameterInfo)
    (ht : trajAdd [(m.t, m.t)] est = (p1, Except.ok (tmeta, tinfo)))
    (hi : imuAdd m.imu_ [(m.t, m.t)] p1 = (p2, Except.ok (imeta, iinfo))) :
    m.AddToEstimator trajAdd imuAdd est =
      (p2.AddResidualBlock
        ⟨(tinfo ++ iinfo).map (fun pi => pi.size), 3⟩
        none
        ((tinfo ++ iinfo).map (fun pi => pi.data)),
       Except.ok ⟨m, imeta, tmeta⟩) := by
  simp only [GyroscopeMeasurement.AddToEstimator, ht, hi, foldl_addParameterBlock,
    DynamicCostFunction.SetNumResiduals, ParameterInfo.ToParameterBlocks, List.nil_append]

/-- C1: `AddToEstimator` follows the two-phase protocol: the trajectory
registers first (turning the Problem `est` into `p1`), then the sensor
(turning `p1` into `p2`); the combined ordered descriptor list is
`tinfo ++ iinfo`; the cost function declares one parameter block per
entry with that entry's size, its output dimension is set to 3, and it is
submitted to the Problem with the underlying storage locations in the
same order the descriptors were recorded. -/
theorem addToEstimator_two_phase {ImuPtr : Type}
    (trajAdd : EntityAdd) (imuAdd : ImuPtr → EntityAdd)
    (m : GyroscopeMeasurement ImuPtr) (est p1 p2 : ProblemState)
    (tmeta imeta : Meta) (tinfo iinfo : List ParameterInfo)
    (ht : trajAdd [(m.t, m.t)] est = (p1, Except.ok (tmeta, tinfo)))
    (hi : imuAdd m.imu_ [(m.t, m.t)] p1 = (p2, Except.ok (imeta, iinfo))) :
    m.AddToEstimator trajAdd imuAdd est =
      (p2.AddResidualBlock
        ⟨(tinfo ++ iinfo).map (fun pi => pi.size), 3⟩
        none
        ((tinfo ++ iinfo).map (fun pi => pi.data)),
       Except.ok ⟨m, imeta, tmeta⟩) :=
  addToEstimator_spec trajAdd imuAdd m est p1 p2 tmeta imeta tinfo iinfo ht hi

/-- Witness for C1 at a concrete measurement, Problem and callbacks. -/
theorem addToEstimator_two_phase_witness :
    (GyroscopeMeasurement.mk () 2 ⟨1, 2, 3⟩ 1).AddToEstimator trajAddDemo imuAddDemo ⟨[], []⟩ =
      (⟨[(10, 4), (11, 4), (20, 3)],
        [⟨⟨[4, 4, 3], 3⟩, none, [10, 11, 20]⟩]⟩,
       Except.ok ⟨⟨(), 2, ⟨1, 2, 3⟩, 1⟩, ⟨[3]⟩, ⟨[4, 4]⟩⟩) := by
  exact addToEstimator_two_phase trajAddDemo imuAddDemo _ _ _ _ _ _ _ _ rfl rfl

/-- C6: if the trajectory's registration at the measurement's timestamp
fails with `OutOfSupportError` (atomically, returning the Problem
unchanged, as the entity contract requires), then `AddToEstimator` fails
with the same error and the Problem — registry and residual blocks — is
exactly the one passed in: no parameter registration and no residual
submission survive. -/
theorem addToEstimator_out_of_support_unchanged {ImuPtr : Type}
    (trajAdd : EntityAdd) (imuAdd : ImuPtr → EntityAdd)
    (m : GyroscopeMeasurement ImuPtr) (est : ProblemState)
    (ht : trajAdd [(m.t, m.t)] est = (est, Except.error EstimatorError.OutOfSupportError)) :
    m.AddToEstimator trajAdd imuAdd est =
      (est, Except.error EstimatorError.OutOfSupportError) := by
  unfold GyroscopeMeasurement.AddToEstimator
  rw [ht]

/-- Witness for C6 at a concrete out-of-support measurement. -/
theorem addToEstimator_out_of_support_unchanged_witness :
    (GyroscopeMeasurement.mk () 99 ⟨1, 2, 3⟩ 1).AddToEstimator trajAddFail imuAddDemo
        ⟨[(10, 4)], []⟩ =
      (⟨[(10, 4)], []⟩, Except.error EstimatorError.OutOfSupportError) := by
  exact addToEstimator_out_of_support_unchanged trajAddFail imuAddDemo _ _ rfl

/-- C8: the measurement is read-only: `Measure` and `Error` are pure
functions of it, and a successful `AddToEstimator` hands the residual a
measurement whose timestamp, observed value, weight and sensor reference
are exactly those of the measurement it was called on. -/
theorem addToEstimator_measurement_immutable {ImuPtr : Type}
    (trajAdd : EntityAdd) (imuAdd : ImuPtr → EntityAdd)
    (m : GyroscopeMeasurement ImuPtr) (est p : ProblemState) (r : Residual ImuPtr)
    (hr : m.AddToEstimator trajAdd imuAdd est = (p, Except.ok r)) :
    r.measurement.t = m.t ∧ r.measurement.w = m.w ∧
      r.measurement.weight = m.weight ∧ r.measurement.imu_ = m.imu_ := by
  unfold GyroscopeMeasurement.AddToEstimator at hr
  split at hr
  case h_1 => simp at hr
  case h_2 =>
    split at hr
    case h_1 => simp at hr
    case h_2 =>
      simp only [Prod.mk.injEq, Except.ok.injEq] at hr
      obtain ⟨-, hr⟩ := hr
      subst hr
      exact ⟨rfl, rfl, rfl, rfl⟩

/-- Witness for C8 at a concrete measurement and callbacks. -/
theorem addToEstimator_measurement_immutable_witness :
    (⟨⟨(), 2, ⟨1, 2, 3⟩, 5⟩, ⟨[3]⟩, ⟨[4, 4]⟩⟩ : Residual Unit).measurement.t =
        (GyroscopeMeasurement.mk () 2 ⟨1, 2, 3⟩ 5).t ∧
      (⟨⟨(), 2, ⟨1, 2, 3⟩, 5⟩, ⟨[3]⟩, ⟨[4, 4]⟩⟩ : Residual Unit).measurement.w =
        (GyroscopeMeasurement.mk () 2 ⟨1, 2, 3⟩ 5).w ∧
      (⟨⟨(), 2, ⟨1, 2, 3⟩, 5⟩, ⟨[3]⟩, ⟨[4, 4]⟩⟩ : Residual Unit).measurement.weight =
        (GyroscopeMeasurement.mk () 2 ⟨1, 2, 3⟩ 5).weight ∧
      (⟨⟨(), 2, ⟨1, 2, 3⟩, 5⟩, ⟨[3]⟩, ⟨[4, 4]⟩⟩ : Residual Unit).measurement.imu_ =
        (GyroscopeMeasurement.mk () 2 ⟨1, 2, 3⟩ 5).imu_ := by
  exact addToEstimator_measurement_immutable trajAddDemo imuAddDemo
    ⟨(), 2, ⟨1, 2, 3⟩, 5⟩ ⟨[], []⟩
    ⟨[(10, 4), (11, 4), (20, 3)], [⟨⟨[4, 4, 3], 3⟩, none, [10, 11, 20]⟩]⟩
    ⟨⟨(), 2, ⟨1, 2, 3⟩, 5⟩, ⟨[3]⟩, ⟨[4, 4]⟩⟩ rfl

/-- C9: the three-argument constructor produces the same measurement as
the four-argument one with weight 1.0: the weight is 1 and every other
field equals the given argument. -/
theorem mkDefault_weight_one {ImuPtr : Type} (imu : ImuPtr) (t : ℚ) (w : Vec3 ℚ) :
    GyroscopeMeasurement.mkDefault imu t w = GyroscopeMeasurement.mk imu t w 1 ∧
      (GyroscopeMeasurement.mkDefault imu t w).weight = 1 ∧
      (GyroscopeMeasurement.mkDefault imu t w).imu_ = imu ∧
      (GyroscopeMeasurement.mkDefault imu t w).t = t ∧
      (GyroscopeMeasurement.mkDefault imu t w).w = w :=
  ⟨rfl, rfl, rfl, rfl, rfl⟩

/-- C10: the residual functor returns `true` for every parameter array,
every scalar type and every sensor semantics: it never signals failure to
the solver. -/
theorem residual_eval_returns_true {ImuPtr T : Type} [Sub T]
    (gyro : List (List T) → List (List T) → T → Vec3 T)
    (r : Residual ImuPtr) (castQ : ℚ → T) (params : List (List T)) :
    (r.eval gyro castQ params).1 = true :=
  rfl

/-- C2: the offsets the residual functor uses at evaluation time match the
registration exactly. If the trajectory's registration recorded
`tinfo` (with `trajectory_meta` describing the same number of blocks) and
the sensor's recorded `iinfo` likewise, then for a flat parameter array
listing the trajectory blocks' values followed by the sensor blocks'
values — the order `AddToEstimator` submitted the storages in — the
functor's trajectory view is exactly the first
`trajectory_meta.NumParameters()` entries and its sensor view exactly the
following `imu_meta.NumParameters()` entries, and the residual's stored
Metas are the ones registration filled. -/
theorem residual_offsets_match_registration {ImuPtr T : Type}
    (trajAdd : EntityAdd) (imuAdd : ImuPtr → EntityAdd)
    (m : GyroscopeMeasurement ImuPtr) (est p1 p2 p3 : ProblemState)
    (tmeta imeta : Meta) (tinfo iinfo : List ParameterInfo) (r : Residual ImuPtr)
    (ht : trajAdd [(m.t, m.t)] est = (p1, Except.ok (tmeta, tinfo)))
    (hi : imuAdd m.imu_ [(m.t, m.t)] p1 = (p2, Except.ok (imeta, iinfo)))
    (hr : m.AddToEstimator trajAdd imuAdd est = (p3, Except.ok r))
    (htn : tinfo.length = tmeta.NumParameters)
    (hin : iinfo.length = imeta.NumParameters)
    (tvals ivals : List (List T))
    (h1 : tvals.length = tinfo.length)
    (h2 : ivals.length = iinfo.length) :
    r.trajectory_meta = tmeta ∧ r.imu_meta = imeta ∧
      r.trajectoryView (tvals ++ ivals) = tvals ∧
      r.imuView (tvals ++ ivals) = ivals := by
  have hconc := addToEstimator_spec trajAdd imuAdd m est p1 p2 tmeta imeta tinfo iinfo ht hi
  rw [hr] at hconc
  simp only [Prod.mk.injEq, Except.ok.injEq] at hconc
  obtain ⟨-, hrr⟩ := hconc
  subst hrr
  refine ⟨rfl, rfl, ?_, ?_⟩
  · show ((tvals ++ ivals).drop 0).take tmeta.NumParameters = tvals
    rw [List.drop_zero, ← htn, ← h1]
    exact List.take_left tvals ivals
  · show ((tvals ++ ivals).drop (0 + tmeta.NumParameters)).take imeta.NumParameters = ivals
    rw [Nat.zero_add, ← htn, ← h1, List.drop_left]
    exact List.take_of_length_le (by rw [h2, hin])

/-- Witness for C2 at a concrete registration and parameter values. -/
theorem residual_offsets_match_registration_witness :
    (⟨⟨(), 2, ⟨1, 2, 3⟩, 1⟩, ⟨[3]⟩, ⟨[4, 4]⟩⟩ : Residual Unit).trajectory_meta = ⟨[4, 4]⟩ ∧
      (⟨⟨(), 2, ⟨1, 2, 3⟩, 1⟩, ⟨[3]⟩, ⟨[4, 4]⟩⟩ : Residual Unit).imu_meta = ⟨[3]⟩ ∧
      (⟨⟨(), 2, ⟨1, 2, 3⟩, 1⟩, ⟨[3]⟩, ⟨[4, 4]⟩⟩ : Residual Unit).trajectoryView
          (([[1, 2, 3, 4], [5, 6, 7, 8]] ++ [[9, 10, 11]] : List (List ℚ))) =
        [[1, 2, 3, 4], [5, 6, 7, 8]] ∧
      (⟨⟨(), 2, ⟨1, 2, 3⟩, 1⟩, ⟨[3]⟩, ⟨[4, 4]⟩⟩ : Residual Unit).imuView
          (([[1, 2, 3, 4], [5, 6, 7, 8]] ++ [[9, 10, 11]] : List (List ℚ))) =
        [[9, 10, 11]] := by
  exact residual_offsets_match_registration trajAddDemo imuAddDemo
    ⟨(), 2, ⟨1, 2, 3⟩, 1⟩ ⟨[], []⟩
    ⟨[(10, 4), (11, 4)], []⟩ ⟨[(10, 4), (11, 4), (20, 3)], []⟩
    ⟨[(10, 4), (11, 4), (20, 3)], [⟨⟨[4, 4, 3], 3⟩, none, [10, 11, 20]⟩]⟩
    ⟨[4, 4]⟩ ⟨[3]⟩ [⟨10, 4⟩, ⟨11, 4⟩] [⟨20, 3⟩]
    ⟨⟨(), 2, ⟨1, 2, 3⟩, 1⟩, ⟨[3]⟩, ⟨[4, 4]⟩⟩
    rfl rfl rfl rfl rfl
    [[1, 2, 3, 4], [5, 6, 7, 8]] [[9, 10, 11]] rfl rfl

/-- C3: `Error` is observed minus predicted —
`w.cast<T>() - Measure(imu, trajectory)` — and its output is a 3-vector
whatever the entities and scalar type: the dimension is fixed at 3 and
never depends on any parameter-block count. -/
theorem error_observed_minus_predicted {ImuPtr Traj T : Type} [Sub T]
    (m : GyroscopeMeasurement ImuPtr) (imu : ImuView Traj T) (trajectory : Traj)
    (castQ : ℚ → T) :
    m.Error imu trajectory castQ =
      Vec3.sub (Vec3.map castQ m.w) (m.Measure imu trajectory castQ) ∧
      (m.Error imu trajectory castQ).toList.length = 3 :=
  ⟨rfl, rfl⟩

/-- Witness for C3 at concrete entities over ℚ. -/
theorem error_observed_minus_predicted_witness :
    (GyroscopeMeasurement.mk () 2 ⟨1, 2, 3⟩ 1).Error
        (⟨fun _ _ => ⟨10, 20, 30⟩⟩ : ImuView Unit ℚ) () id =
      Vec3.sub (Vec3.map id ⟨1, 2, 3⟩)
        ((GyroscopeMeasurement.mk () 2 ⟨1, 2, 3⟩ 1).Measure
          (⟨fun _ _ => ⟨10, 20, 30⟩⟩ : ImuView Unit ℚ) () id) ∧
      ((GyroscopeMeasurement.mk () 2 ⟨1, 2, 3⟩ 1).Error
        (⟨fun _ _ => ⟨10, 20, 30⟩⟩ : ImuView Unit ℚ) () id).toList.length = 3 := by
  exact error_observed_minus_predicted (GyroscopeMeasurement.mk () 2 ⟨1, 2, 3⟩ 1)
    ⟨fun _ _ => ⟨10, 20, 30⟩⟩ () id

/-- C4 (counterexample evaluation): the stored scalar weight is never
applied: two measurements identical except for their weights (1 versus 2)
produce the same nonzero residual vector, and their cost functions are
submitted with no loss function, so they contribute identically — not in
proportion to their weights — to the objective. -/
theorem weight_not_applied_to_residual :
    (Residual.eval gyroLinear ⟨⟨(), 0, ⟨1, 2, 3⟩, 1⟩, ⟨[3]⟩, ⟨[3]⟩⟩ id
        [[5, 6, 7], [1, 1, 1]]).2 =
      (Residual.eval gyroLinear ⟨⟨(), 0, ⟨1, 2, 3⟩, 2⟩, ⟨[3]⟩, ⟨[3]⟩⟩ id
        [[5, 6, 7], [1, 1, 1]]).2 ∧
      (Residual.eval gyroLinear ⟨⟨(), 0, ⟨1, 2, 3⟩, 1⟩, ⟨[3]⟩, ⟨[3]⟩⟩ id
        [[5, 6, 7], [1, 1, 1]]).2 ≠ ⟨0, 0, 0⟩ := by
  refine ⟨rfl, ?_⟩
  simp only [Residual.eval, Residual.trajectoryView, Residual.imuView, entityMap,
    Meta.NumParameters, GyroscopeMeasurement.Error, GyroscopeMeasurement.Measure,
    gyroLinear, vec3OfBlock, Vec3.sub, Vec3.add, Vec3.map, ne_eq, Vec3.mk.injEq,
    List.drop_zero, List.length_cons, List.length_nil, List.take_succ_cons,
    List.take_zero, List.getD, List.get?, id_eq, not_and]
  norm_num

/-- C5: every residual instance reports the fixed output dimension 3,
however many parameter blocks it was constructed with: the submitted cost
function's declared residual count is 3, and the functor's output is a
3-vector. -/
theorem residual_reports_dimension_three {ImuPtr T : Type} [Sub T]
    (trajAdd : EntityAdd) (imuAdd : ImuPtr → EntityAdd)
    (m : GyroscopeMeasurement ImuPtr) (est p1 p2 p3 : ProblemState)
    (tmeta imeta : Meta) (tinfo iinfo : List ParameterInfo) (r : Residual ImuPtr)
    (gyro : List (List T) → List (List T) → T → Vec3 T)
    (castQ : ℚ → T) (params : List (List T))
    (ht : trajAdd [(m.t, m.t)] est = (p1, Except.ok (tmeta, tinfo)))
    (hi : imuAdd m.imu_ [(m.t, m.t)] p1 = (p2, Except.ok (imeta, iinfo)))
    (hr : m.AddToEstimator trajAdd imuAdd est = (p3, Except.ok r)) :
    p3.residual_blocks.getLast?.map (fun rb => rb.cost.num_residuals) = some 3 ∧
      ((r.eval gyro castQ params).2).toList.length = 3 := by
  have hconc := addToEstimator_spec trajAdd imuAdd m est p1 p2 tmeta imeta tinfo iinfo ht hi
  rw [hr] at hconc
  simp only [Prod.mk.injEq, Except.ok.injEq] at hconc
  obtain ⟨hp3, -⟩ := hconc
  subst hp3
  exact ⟨by simp [ProblemState.AddResidualBlock, List.getLast?_concat], rfl⟩

/-- Witness for C5 at a concrete measurement and parameter array. -/
theorem residual_reports_dimension_three_witness :
    (⟨[(10, 4), (11, 4), (20, 3)],
        [⟨⟨[4, 4, 3], 3⟩, none, [10, 11, 20]⟩]⟩ : ProblemState).residual_blocks.getLast?.map
        (fun rb => rb.cost.num_residuals) = some 3 ∧
      (((⟨⟨(), 2, ⟨1, 2, 3⟩, 1⟩, ⟨[3]⟩, ⟨[4, 4]⟩⟩ : Residual Unit).eval gyroLinear id
        [[1, 2, 3, 4], [5, 6, 7, 8], [9, 10, 11]]).2).toList.length = 3 := by
  exact residual_reports_dimension_three trajAddDemo imuAddDemo
    ⟨(), 2, ⟨1, 2, 3⟩, 1⟩ ⟨[], []⟩
    ⟨[(10, 4), (11, 4)], []⟩ ⟨[(10, 4), (11, 4), (20, 3)], []⟩
    ⟨[(10, 4), (11, 4), (20, 3)], [⟨⟨[4, 4, 3], 3⟩, none, [10, 11, 20]⟩]⟩
    ⟨[4, 4]⟩ ⟨[3]⟩ [⟨10, 4⟩, ⟨11, 4⟩] [⟨20, 3⟩]
    ⟨⟨(), 2, ⟨1, 2, 3⟩, 1⟩, ⟨[3]⟩, ⟨[4, 4]⟩⟩
    gyroLinear id [[1, 2, 3, 4], [5, 6, 7, 8], [9, 10, 11]]
    rfl rfl rfl

/-- Unfolding equation for dual-number addition. -/
theorem Dual.add_def (a b : Dual) : a + b = ⟨a.val + b.val, a.eps + b.eps⟩ :=
  rfl

/-- Unfolding equation for dual-number subtraction. -/
theorem Dual.sub_def (a b : Dual) : a - b = ⟨a.val - b.val, a.eps - b.eps⟩ :=
  rfl

/-- C7: differentiation consistency on the spec-modelled linear
trajectory/bias sensor pair. Evaluating the residual functor — the same
generic code path, with `Dual.const` in place of the plain cast — on
parameters seeded at block `i`, component `j` yields a derivative part
that equals, for every nonzero step `h`, the finite-difference quotient
of the plain-number evaluation perturbed at that same scalar. The residual
is affine in its parameters, so the quotient is independent of `h` and the
match is exact: the dual path computes the exact partial derivatives. -/
theorem dual_eval_matches_finite_difference
    (m : GyroscopeMeasurement Unit) (c0 c1 c2 b0 b1 b2 : ℚ) (i j : Nat)
    (hi2 : i < 2) (hj3 : j < 3) (h : ℚ) (hh : h ≠ 0) :
    Vec3.map Dual.eps
        ((Residual.eval gyroLinear ⟨m, ⟨[3]⟩, ⟨[3]⟩⟩ Dual.const
          (dualSeed [[c0, c1, c2], [b0, b1, b2]] i j)).2) =
      Vec3.smul h⁻¹
        (Vec3.sub
          ((Residual.eval gyroLinear ⟨m, ⟨[3]⟩, ⟨[3]⟩⟩ id
            (perturb [[c0, c1, c2], [b0, b1, b2]] i j h)).2)
          ((Residual.eval gyroLinear ⟨m, ⟨[3]⟩, ⟨[3]⟩⟩ id
            [[c0, c1, c2], [b0, b1, b2]]).2)) := by
  interval_cases i <;> interval_cases j <;>
  · simp only [dualSeed, seedBlock, perturb, perturbBlock, List.map_cons, List.map_nil,
      Residual.eval, Residual.trajectoryView, Residual.imuView, entityMap,
      Meta.NumParameters, GyroscopeMeasurement.Error, GyroscopeMeasurement.Measure,
      gyroLinear, vec3OfBlock, Vec3.sub, Vec3.add, Vec3.map, Vec3.smul, Dual.const,
      Dual.add_def, Dual.sub_def, List.drop_zero, List.length_cons, List.length_nil,
      List.take_succ_cons, List.take_zero, List.getD, List.get?, Option.getD_some,
      id_eq, Vec3.mk.injEq]
    refine ⟨?_, ?_, ?_⟩ <;> (field_simp; try ring)

/-- Witness for C7: concrete parameters, seed at block 0 component 0,
step 1. -/
theorem dual_eval_matches_finite_difference_witness :
    0 < 2 ∧ 0 < 3 ∧ (1 : ℚ) ≠ 0 ∧
      Vec3.map Dual.eps
          ((Residual.eval gyroLinear ⟨⟨(), 0, ⟨1, 2, 3⟩, 1⟩, ⟨[3]⟩, ⟨[3]⟩⟩ Dual.const
            (dualSeed [[5, 6, 7], [1, 1, 1]] 0 0)).2) =
        Vec3.smul (1 : ℚ)⁻¹
          (Vec3.sub
            ((Residual.eval gyroLinear ⟨⟨(), 0, ⟨1, 2, 3⟩, 1⟩, ⟨[3]⟩, ⟨[3]⟩⟩ id
              (perturb [[5, 6, 7], [1, 1, 1]] 0 0 1)).2)
            ((Residual.eval gyroLinear ⟨⟨(), 0, ⟨1, 2, 3⟩, 1⟩, ⟨[3]⟩, ⟨[3]⟩⟩ id
              [[5, 6, 7], [1, 1, 1]]).2)) :=
  ⟨by decide, by decide, by norm_num,
   dual_eval_matches_finite_difference ⟨(), 0, ⟨1, 2, 3⟩, 1⟩ 5 6 7 1 1 1 0 0
     (by decide) (by decide) 1 (by norm_num)⟩

end Taser
